import Mathlib

/-!
Shallow embedding of `build_globaltech_analysis_final.py`, a one-shot batch
script that loads a tabular sales dataset, validates required columns,
derives calendar fields, computes grouped aggregates, and writes an Excel
workbook (Data, Manager Performance, Category Trends, Top Products,
Dashboard, Findings sheets).

Modelling conventions:
* a dataframe row is a `Row`; fields that can be NaN in pandas and matter to
  the verified properties (`Order Date` after `to_datetime(errors="coerce")`,
  `Manager`, `Order ID`) are `Option`s, `none` standing for NaN/NaT;
* the `Sales` float column is modelled as `ℚ`;
* Excel cell values produced by generated formulas (`SUMIF`, `SUMIFS`, `SUM`,
  `COUNTA`, `RANK`) are modelled by the functions that compute what those
  formulas evaluate to against the written Data sheet;
* the run is a pure function `run_program : Bool → Table → Except ProgError Output`;
  the `Bool` is the `os.path.exists(INPUT_FILE)` check, an `Except.error`
  models an uncaught Python exception (no output file produced).
-/

namespace GlobalTech

/-- Configuration constant `INPUT_FILE` from the script header. -/
def INPUT_FILE : String := "GLOBAL DATASET .xlsx"

/-- Configuration constant `OUTPUT_FILE` from the script header. -/
def OUTPUT_FILE : String := "GlobalTech_Sales_Analysis.xlsx"

/-- Configuration constant `TOP_N_PRODUCTS` from the script header. -/
def TOP_N_PRODUCTS : Nat := 10

/-- The digit list (most significant first, each digit in `0..25`) produced by
the loop of `col_idx_to_excel_col`: each pass takes `divmod(idx, 26)`, emits
the remainder, stops when the quotient is `0`, else continues on `quotient - 1`. -/
def col_digits (idx : Nat) : List Nat :=
  if idx / 26 = 0 then [idx % 26]
  else col_digits (idx / 26 - 1) ++ [idx % 26]
decreasing_by
  have h26 : idx / 26 ≤ idx := Nat.div_le_self idx 26
  omega

/-- `col_idx_to_excel_col(idx)`: 0-based column index to Excel column letters
(`A`, ..., `Z`, `AA`, `AB`, ...); each digit `d` becomes `chr(65 + d)`. -/
def col_idx_to_excel_col (idx : Nat) : String :=
  ⟨(col_digits idx).map (fun d => Char.ofNat (65 + d))⟩

/-- Bijective base-26 value (shifted by one) of a digit list, used to invert
`col_digits`. -/
def col_val (l : List Nat) : Nat :=
  l.foldl (fun a d => 26 * a + d + 1) 0

theorem col_digits_lt (idx : Nat) : ∀ d ∈ col_digits idx, d < 26 := by
  induction idx using Nat.strong_induction_on with
  | _ idx ih =>
    rw [col_digits]
    split
    · intro d hd
      simp only [List.mem_singleton] at hd
      subst hd
      exact Nat.mod_lt _ (by omega)
    · intro d hd
      rcases List.mem_append.1 hd with h | h
      · refine ih (idx / 26 - 1) ?_ d h
        have h26 : idx / 26 ≤ idx := Nat.div_le_self idx 26
        omega
      · simp only [List.mem_singleton] at h
        subst h
        exact Nat.mod_lt _ (by omega)

theorem col_digits_ne_nil (idx : Nat) : col_digits idx ≠ [] := by
  rw [col_digits]
  split <;> simp

theorem col_val_append_singleton (l : List Nat) (d : Nat) :
    col_val (l ++ [d]) = 26 * col_val l + d + 1 := by
  simp [col_val, List.foldl_append]

theorem col_val_col_digits (idx : Nat) : col_val (col_digits idx) = idx + 1 := by
  induction idx using Nat.strong_induction_on with
  | _ idx ih =>
    rw [col_digits]
    split
    · rename_i h0
      have : idx % 26 = idx := by omega
      simp [col_val, this]
    · rename_i h0
      rw [col_val_append_singleton]
      have hlt : idx / 26 - 1 < idx := by
        have h26 : idx / 26 ≤ idx := Nat.div_le_self idx 26
        omega
      rw [ih (idx / 26 - 1) hlt]
      have := Nat.div_add_mod idx 26
      omega

theorem col_digits_injective : Function.Injective col_digits := by
  intro a b h
  have := col_val_col_digits a
  rw [h, col_val_col_digits b] at this
  omega

/-- A parsed `Order Date` value (`pd.to_datetime` result), reduced to the
calendar fields the script derives from it (`dt.year`, `dt.month`). -/
structure Date where
  year : Int
  month : Nat
deriving Repr, DecidableEq

/-- One row of the loaded dataframe. `Option` fields model NaN/NaT: the
order date after `to_datetime(..., errors="coerce")`, the raw `Manager`
cell before `fillna("")`, and the `Order ID` cell. -/
structure Row where
  order_date : Option Date
  category : String
  sub_category : String
  product_name : String
  manager : Option String
  sales : ℚ
  order_id : Option String
  customer_id : Option String
deriving Repr, DecidableEq

/-- The loaded dataframe: its column header (`df.columns`) and its rows. -/
structure Table where
  header : List String
  rows : List Row
deriving Repr, DecidableEq

/-- The `required` column list checked right after loading. -/
def required : List String :=
  ["Order Date", "Category", "Sub-Category", "Product Name", "Manager",
   "Sales", "Order ID", "Customer ID"]

/-- The loop `for c in required: if c not in df.columns: raise ValueError(...)`
raises on the first required column absent from the header. -/
def first_missing_column (header : List String) : Option String :=
  required.find? (fun c => !(header.contains c))

/-- Message of the `ValueError` raised for a missing required column. -/
def missing_column_msg (c : String) : String :=
  "Required column missing from input: " ++ c

/-- Message of the `FileNotFoundError` raised when `INPUT_FILE` does not exist. -/
def file_not_found_msg : String :=
  "Input file " ++ INPUT_FILE ++
    " not found. Put the dataset in same folder or change INPUT_FILE."

/-- Message of the `IndexError` raised by `years[0]` when no date parsed. -/
def index_error_msg : String := "list index out of range"

/-- `df["Manager"].fillna("")` applied to one row. -/
def manager_filled (r : Row) : String := r.manager.getD ""

/-- One row as written to the Data sheet: the `Manager` cell after `fillna("")`
(all other cells unchanged; `Year`/`Month` are derived columns read off
`order_date` by `row_year`). -/
def fill_row (r : Row) : Row := { r with manager := some (manager_filled r) }

/-- The dataframe written to the Data sheet. -/
def prepare (rows : List Row) : List Row := rows.map fill_row

/-- The derived `Year` column (`df["Order Date"].dt.year`, NaN for NaT). -/
def row_year (r : Row) : Option Int := r.order_date.map (·.year)

/-- `total_sales_val = df["Sales"].sum()`. -/
def total_sales_val (rows : List Row) : ℚ := (rows.map (·.sales)).sum

/-- `total_orders = df["Order ID"].nunique()` (distinct non-NaN order ids). -/
def total_orders (rows : List Row) : Nat :=
  ((rows.filterMap (·.order_id)).dedup).length

/-- `distinct_managers = df["Manager"].nunique()` after `fillna("")`. -/
def distinct_managers (rows : List Row) : Nat :=
  ((rows.map manager_filled).dedup).length

/-- `avg_order_value = total_sales_val / total_orders if total_orders else 0`. -/
def avg_order_value (rows : List Row) : ℚ :=
  if total_orders rows = 0 then 0
  else total_sales_val rows / (total_orders rows : ℚ)

/-- `years = sorted(df["Year"].dropna().unique())`. -/
def years (rows : List Row) : List Int :=
  ((rows.filterMap row_year).dedup).insertionSort (· ≤ ·)

/-- `managers = sorted(df["Manager"].replace("", pd.NA).dropna().unique())`:
the distinct non-empty manager names, sorted ascending. -/
def managers (rows : List Row) : List String :=
  (((rows.map manager_filled).filter (fun m => decide (m ≠ ""))).dedup).insertionSort (· ≤ ·)

/-- Value of the Manager-sheet cell
`=SUMIF(Data!$E:$E, mgr, Data!$F:$F)`: the sum of `Sales` over Data-sheet rows
whose (filled) `Manager` cell equals `m`. -/
def sumif_manager (rows : List Row) (m : String) : ℚ :=
  ((rows.filter (fun r => decide (manager_filled r = m))).map (·.sales)).sum

/-- Value of the Manager-sheet cell `=RANK(B_r, $B$2:$B$(1+n), 0)`: one plus
the number of managers whose aggregate sales strictly exceed `m`'s
(descending rank, rank 1 for the highest). -/
def rank_of (rows : List Row) (m : String) : Nat :=
  1 + (managers rows).countP
    (fun m2 => decide (sumif_manager rows m < sumif_manager rows m2))

/-- The body rows of the Manager Performance sheet:
(manager, `Sales (calc)` cell value, `Rank` cell value), one per manager. -/
def manager_sheet (rows : List Row) : List (String × ℚ × Nat) :=
  (managers rows).map (fun m => (m, sumif_manager rows m, rank_of rows m))

/-- `categories = sorted(df["Category"].dropna().unique())` (the model keeps
`Category` as a plain string, so there is nothing to drop). -/
def categories (rows : List Row) : List String :=
  ((rows.map (·.category)).dedup).insertionSort (· ≤ ·)

/-- Value of the Category-Trends cell
`=SUMIFS(Data!$F:$F, Data!$B:$B, cat, Data!$I:$I, year)`. -/
def sumifs_cat_year (rows : List Row) (c : String) (y : Int) : ℚ :=
  ((rows.filter (fun r => decide (r.category = c ∧ row_year r = some y))).map (·.sales)).sum

/-- One entry of `cat_totals = df.groupby("Category")["Sales"].sum()`: the
total sales of one category over the whole dataset, dated or not. -/
def cat_sales (rows : List Row) (c : String) : ℚ :=
  ((rows.filter (fun r => decide (r.category = c))).map (·.sales)).sum

/-- `top_category = cat_totals.sort_values(ascending=False).index[0]` (line
60), `None` when there are no rows. The script sorts descending with numpy's
unstable quicksort, so among tied maximal categories the chosen one is
unspecified; the model takes the alphabetically first maximal category
(`argmax` over the ascending `categories` list returns the earliest
maximum). -/
def top_category (rows : List Row) : Option String :=
  (categories rows).argmax (cat_sales rows)

/-- The row labels of
`cat_sales_by_year = df.groupby(["Category", "Year"])["Sales"].sum().unstack()`:
`groupby` drops rows whose `Year` is NaN, so a category appears here exactly
when at least one of its rows has a parsed (non-NaT) order date. -/
def cat_sales_by_year_index (rows : List Row) : List String :=
  ((rows.filter (fun r => decide (row_year r ≠ none))).map (·.category)).dedup

/-- Value of the Top-Products-sheet cell
`=SUMIF(Data!$D:$D, product, Data!$F:$F)`. -/
def sumif_product (rows : List Row) (p : String) : ℚ :=
  ((rows.filter (fun r => decide (r.product_name = p))).map (·.sales)).sum

/-- The distinct product names (`df.groupby("Product Name")` group keys). -/
def product_names (rows : List Row) : List String :=
  (rows.map (·.product_name)).dedup

/-- Ordering used by `prod_totals.sort_values(ascending=False)`: `a` before
`b` when `a`'s aggregate sales are at least `b`'s. -/
def prod_ge (rows : List Row) (a b : String) : Prop :=
  sumif_product rows b ≤ sumif_product rows a

instance (rows : List Row) : DecidableRel (prod_ge rows) := fun a b =>
  inferInstanceAs (Decidable (sumif_product rows b ≤ sumif_product rows a))

/-- `prod_list = list(prod_totals.head(TOP_N_PRODUCTS).index)`: the product
names sorted by descending aggregate sales, first `TOP_N_PRODUCTS` of them. -/
def prod_list (rows : List Row) : List String :=
  ((product_names rows).insertionSort (prod_ge rows)).take TOP_N_PRODUCTS

/-- Value of `SUM($B$2:$B$(1+len(prod_list)))` on the Top Products sheet: the
sum of the top-N products' `Sales (calc)` cells. -/
def top_subtotal (rows : List Row) : ℚ :=
  ((prod_list rows).map (sumif_product rows)).sum

/-- The body rows of the Top Products sheet: (product, `Sales (calc)` cell,
`% of Total` cell `=B_i/SUM($B$2:$B$(1+n))`). -/
def top_products_sheet (rows : List Row) : List (String × ℚ × ℚ) :=
  (prod_list rows).map
    (fun p => (p, sumif_product rows p, sumif_product rows p / top_subtotal rows))

/-- Value of the Dashboard Total Sales cell `=SUM(Data!$F:$F)`: the sum of the
`Sales` column of the written Data sheet. -/
def dash_total_sales (rows : List Row) : ℚ :=
  ((prepare rows).map (·.sales)).sum

/-- Value of `COUNTA(Data!$G:$G)` on the `Order ID` column: the header cell
plus every non-blank order-id cell (pandas writes NaN as a blank cell). -/
def counta_order_id (rows : List Row) : Nat :=
  1 + ((prepare rows).filter (fun r => decide (r.order_id ≠ none))).length

/-- Value of the Dashboard Average Order Value cell
`=IFERROR(SUM(Data!$F:$F)/COUNTA(Data!$G:$G),0)`. The denominator counts the
header cell, so it is at least 1 and the division never errors; `ℚ` division
by zero is 0, agreeing with the `IFERROR` fallback. -/
def dash_avg_order_value (rows : List Row) : ℚ :=
  dash_total_sales rows / (counta_order_id rows : ℚ)

/-- Everything the generated workbook records that the verified claims are
about: the Data sheet, the three aggregate sheets, the Dashboard KPI cells,
and the Average Order Value figure printed on the Findings page. -/
structure Output where
  data_rows : List Row
  mgr_sheet : List (String × ℚ × Nat)
  cat_sheet : List (String × List ℚ)
  prod_sheet : List (String × ℚ × ℚ)
  kpi_total_sales : ℚ
  kpi_total_orders : Nat
  kpi_distinct_managers : Nat
  kpi_avg_order_value : ℚ
  findings_avg_order_value : ℚ
  first_year : Int
  last_year : Int
deriving Repr, DecidableEq

/-- The uncaught Python exceptions the script can terminate with. The
`keyError` carries the missing row label (Python prints `KeyError: label`). -/
inductive ProgError where
  | fileNotFound (msg : String)
  | missingColumn (msg : String)
  | indexError (msg : String)
  | keyError (key : String)
deriving Repr, DecidableEq

/-- The workbook contents assembled once validation passed and
`first_year`/`last_year` were extracted. -/
def build_output (rows : List Row) (fy ly : Int) : Output :=
  { data_rows := prepare rows
    mgr_sheet := manager_sheet rows
    cat_sheet := (categories rows).map (fun c => (c, (years rows).map (sumifs_cat_year rows c)))
    prod_sheet := top_products_sheet rows
    kpi_total_sales := dash_total_sales rows
    kpi_total_orders := counta_order_id rows - 1
    kpi_distinct_managers := distinct_managers rows
    kpi_avg_order_value := dash_avg_order_value rows
    findings_avg_order_value := avg_order_value rows
    first_year := fy
    last_year := ly }

/-- The whole run: the `os.path.exists(INPUT_FILE)` check, the required-column
check, the `first_year = int(years[0])` step (an `IndexError` when every date
coerced to NaT), the findings lookup
`cat_sales_by_year.loc[top_category, first_year]` of line 345 (guarded on the
column by `first_year in cat_sales_by_year.columns` and executed only when
`top_category` is truthy, i.e. neither `None` nor the empty string; it raises
a `KeyError` when `top_category` is not a row label of the pivot), then the
workbook build. The `last_year` lookup of line 346 has the same row label and
an always-equivalent column guard, so it can only raise where line 345 does.
An `Except.error` is an uncaught exception raised before the output file is
written — the `ExcelWriter` opens at line 73, after all of these. -/
def run_program (input_file_exists : Bool) (tbl : Table) : Except ProgError Output :=
  if ¬ input_file_exists then
    .error (.fileNotFound file_not_found_msg)
  else
    match first_missing_column tbl.header with
    | some c => .error (.missingColumn (missing_column_msg c))
    | none =>
      match years tbl.rows with
      | [] => .error (.indexError index_error_msg)
      | y0 :: rest =>
          match top_category tbl.rows with
          | none => .ok (build_output tbl.rows y0 ((y0 :: rest).getLast (by simp)))
          | some tc =>
              if tc ≠ "" ∧ y0 ∈ tbl.rows.filterMap row_year ∧
                  tc ∉ cat_sales_by_year_index tbl.rows then
                .error (.keyError tc)
              else
                .ok (build_output tbl.rows y0 ((y0 :: rest).getLast (by simp)))

/-! ### Helper lemmas -/

theorem total_sales_val_cons (r : Row) (rs : List Row) :
    total_sales_val (r :: rs) = r.sales + total_sales_val rs := by
  simp [total_sales_val]

theorem sumif_manager_cons (r : Row) (rs : List Row) (m : String) :
    sumif_manager (r :: rs) m =
      if manager_filled r = m then r.sales + sumif_manager rs m
      else sumif_manager rs m := by
  by_cases h : manager_filled r = m <;>
    simp [sumif_manager, List.filter_cons, h]

theorem sumif_manager_nil (m : String) : sumif_manager [] m = 0 := by
  simp [sumif_manager]

theorem sumif_manager_eq_zero (rows : List Row) (m : String)
    (h : ∀ r ∈ rows, manager_filled r ≠ m) : sumif_manager rows m = 0 := by
  induction rows with
  | nil => exact sumif_manager_nil m
  | cons r rs ih =>
    rw [sumif_manager_cons, if_neg (h r (by simp))]
    exact ih (fun r2 h2 => h r2 (by simp [h2]))

theorem sum_map_zero_q {α : Type} (l : List α) :
    (l.map (fun _ => (0 : ℚ))).sum = 0 := by
  induction l with
  | nil => simp
  | cons x xs ih => simp [ih]

theorem sum_map_ite (ms : List String) (a : String) (x : ℚ) (f : String → ℚ)
    (hnd : ms.Nodup) (ha : a ∈ ms) :
    (ms.map (fun m => if a = m then x + f m else f m)).sum = x + (ms.map f).sum := by
  induction ms with
  | nil => simp at ha
  | cons m ms ih =>
    rcases List.mem_cons.1 ha with h | h
    · subst h
      have hnot : a ∉ ms := (List.nodup_cons.1 hnd).1
      have hmap : ms.map (fun m2 => if a = m2 then x + f m2 else f m2) = ms.map f := by
        refine List.map_congr_left (fun m2 hm2 => ?_)
        have : a ≠ m2 := fun he => hnot (he ▸ hm2)
        simp [this]
      simp [hmap, add_assoc]
    · have hne : a ≠ m := fun he => (List.nodup_cons.1 hnd).1 (he ▸ h)
      have := ih (List.nodup_cons.1 hnd).2 h
      simp only [List.map_cons, List.sum_cons, if_neg hne, this]
      ring

theorem sum_partition (rows : List Row) (ms : List String)
    (hnd : ms.Nodup) (hcov : ∀ r ∈ rows, manager_filled r ∈ ms) :
    (ms.map (sumif_manager rows)).sum = total_sales_val rows := by
  induction rows with
  | nil =>
    have : ms.map (sumif_manager []) = ms.map (fun _ => (0 : ℚ)) :=
      List.map_congr_left (fun m _ => sumif_manager_nil m)
    simp [this, sum_map_zero_q, total_sales_val]
  | cons r rs ih =>
    have hmap : ms.map (sumif_manager (r :: rs)) =
        ms.map (fun m => if manager_filled r = m then r.sales + sumif_manager rs m
          else sumif_manager rs m) :=
      List.map_congr_left (fun m _ => sumif_manager_cons r rs m)
    rw [hmap, sum_map_ite ms (manager_filled r) r.sales (sumif_manager rs) hnd
      (hcov r (by simp)), ih (fun r2 h2 => hcov r2 (by simp [h2])),
      total_sales_val_cons]

theorem mem_managers_iff (rows : List Row) (m : String) :
    m ∈ managers rows ↔ m ≠ "" ∧ ∃ r ∈ rows, manager_filled r = m := by
  unfold managers
  rw [(List.perm_insertionSort _ _).mem_iff, List.mem_dedup, List.mem_filter]
  simp only [List.mem_map, decide_eq_true_eq]
  tauto

theorem managers_nodup (rows : List Row) : (managers rows).Nodup :=
  ((List.perm_insertionSort _ _).nodup_iff).2 (List.nodup_dedup _)

theorem managers_sorted (rows : List Row) :
    (managers rows).Sorted (· ≤ ·) :=
  List.sorted_insertionSort _ _

/-- Splitting the whole `Sales` column over the distinct non-empty managers
plus the blank-manager group. -/
theorem total_sales_partition (rows : List Row) :
    total_sales_val rows =
      ((managers rows).map (sumif_manager rows)).sum + sumif_manager rows "" := by
  have hblank : "" ∉ managers rows := by
    intro h
    exact ((mem_managers_iff rows "").1 h).1 rfl
  have hnd : (managers rows ++ [""]).Nodup := by
    rw [List.nodup_append]
    refine ⟨managers_nodup rows, List.nodup_singleton _, ?_⟩
    intro m hm hm2
    rw [List.mem_singleton] at hm2
    exact hblank (hm2 ▸ hm)
  have hcov : ∀ r ∈ rows, manager_filled r ∈ managers rows ++ [""] := by
    intro r hr
    by_cases h : manager_filled r = ""
    · simp [h]
    · exact List.mem_append.2 (Or.inl ((mem_managers_iff rows _).2 ⟨h, r, hr, rfl⟩))
  have hsum := sum_partition rows (managers rows ++ [""]) hnd hcov
  rw [List.map_append, List.sum_append] at hsum
  simp only [List.map_cons, List.map_nil, List.sum_cons, List.sum_nil, add_zero] at hsum
  exact hsum.symm

theorem dash_total_sales_eq (rows : List Row) :
    dash_total_sales rows = total_sales_val rows := by
  unfold dash_total_sales total_sales_val prepare
  rw [List.map_map]
  exact congrArg List.sum (List.map_congr_left fun r _ => rfl)

theorem manager_sheet_sales_sum (rows : List Row) :
    ((manager_sheet rows).map (fun e => e.2.1)).sum =
      ((managers rows).map (sumif_manager rows)).sum := by
  unfold manager_sheet
  rw [List.map_map]
  exact congrArg List.sum (List.map_congr_left fun m _ => rfl)

theorem sum_map_div {α : Type} (l : List α) (f : α → ℚ) (c : ℚ) :
    (l.map (fun x => f x / c)).sum = (l.map f).sum / c := by
  induction l with
  | nil => simp
  | cons x xs ih => simp [ih, add_div]

theorem col_roundtrip (idx : Nat) :
    ((col_digits idx).map (fun d => Char.ofNat (65 + d))).map (fun c => c.toNat - 65) =
      col_digits idx := by
  rw [List.map_map]
  have h : ∀ d ∈ col_digits idx,
      ((fun c : Char => c.toNat - 65) ∘ (fun d => Char.ofNat (65 + d))) d = id d := by
    intro d hd
    have h26 := col_digits_lt idx d hd
    simp only [Function.comp, id]
    interval_cases d <;> rfl
  rw [List.map_congr_left h, List.map_id]

theorem find_first {α : Type} (p : α → Bool) (c : α) :
    ∀ l : List α, c ∈ l → p c = true → (∀ x ∈ l, p x = true → x = c) →
      l.find? p = some c := by
  intro l
  induction l with
  | nil => intro h; simp at h
  | cons x xs ih =>
    intro hc hp hu
    by_cases hx : p x = true
    · have : x = c := hu x (by simp) hx
      subst this
      simp [List.find?, hx]
    · have hcx : c ≠ x := fun he => hx (he ▸ hp)
      have hc2 : c ∈ xs := by
        rcases List.mem_cons.1 hc with h | h
        · exact absurd h hcx
        · exact h
      simp only [List.find?, Bool.not_eq_true] at hx ⊢
      rw [hx]
      exact ih hc2 hp (fun y hy => hu y (by simp [hy]))

theorem find?_split {α : Type} (p : α → Bool) :
    ∀ (l : List α) (a : α), l.find? p = some a →
      ∃ pre suf, l = pre ++ a :: suf ∧ (∀ x ∈ pre, p x = false) ∧ p a = true := by
  intro l
  induction l with
  | nil => intro a h; simp at h
  | cons x xs ih =>
    intro a h
    by_cases hx : p x = true
    · rw [List.find?_cons_of_pos _ hx, Option.some.injEq] at h
      subst h
      exact ⟨[], xs, rfl, by simp, hx⟩
    · have hx2 : p x = false := by revert hx; cases p x <;> simp
      rw [List.find?_cons_of_neg _ (by simp [hx2])] at h
      obtain ⟨pre, suf, h1, h2, h3⟩ := ih a h
      refine ⟨x :: pre, suf, by simp [h1], ?_, h3⟩
      intro y hy
      rcases List.mem_cons.1 hy with h4 | h4
      · exact h4 ▸ hx2
      · exact h2 y h4

/-- A row whose `Manager` cell is NaN (missing). -/
def ex_blank_mgr_row : Row :=
  { order_date := some ⟨2013, 5⟩, category := "Technology", sub_category := "Phones",
    product_name := "Phone X", manager := none, sales := 100,
    order_id := some "CA-2013-1001", customer_id := some "CU-1" }

/-- A one-row dataset whose only row has a missing manager. -/
def ex_blank_rows : List Row := [ex_blank_mgr_row]

/-- Toy dataset of the spec: managers `A` (sales 100) and `B` (sales 200),
both orders in a single year (2013). -/
def toy_row_A : Row :=
  { order_date := some ⟨2013, 1⟩, category := "Furniture", sub_category := "Chairs",
    product_name := "Chair", manager := some "A", sales := 100,
    order_id := some "O1", customer_id := some "C1" }

/-- Second toy row, manager `B` with sales 200. -/
def toy_row_B : Row :=
  { order_date := some ⟨2013, 2⟩, category := "Technology", sub_category := "Desks",
    product_name := "Desk", manager := some "B", sales := 200,
    order_id := some "O2", customer_id := some "C2" }

/-- The toy dataset rows. -/
def toy_rows : List Row := [toy_row_A, toy_row_B]

/-- The toy dataset as a loaded table with all required columns present. -/
def toy_table : Table := ⟨required, toy_rows⟩

/-- A table whose header is empty: every required column is missing. -/
def ex_no_cols_table : Table := ⟨[], []⟩

/-- A table whose header misses exactly the `Manager` column. -/
def ex_no_mgr_table : Table :=
  ⟨["Order Date", "Category", "Sub-Category", "Product Name",
    "Sales", "Order ID", "Customer ID"], []⟩

/-- The one-row blank-manager dataset as a schema-valid table. -/
def ex_blank_table : Table := ⟨required, ex_blank_rows⟩

/-- The `ValueError` message contains the named column. -/
theorem msg_names_column (c : String) : c.data <:+: (missing_column_msg c).data := by
  unfold missing_column_msg
  rw [String.data_append]
  exact (List.suffix_append _ _).isInfix

/-- Unfolding a run that fails the column check. -/
theorem run_program_some_col (tbl : Table) (c : String)
    (h : first_missing_column tbl.header = some c) :
    run_program true tbl = .error (.missingColumn (missing_column_msg c)) := by
  unfold run_program
  rw [if_neg (by simp), h]

/-- Unfolding a run that passes the column check, finds a first year, and
whose top category (when non-empty) has a dated row. -/
theorem run_program_ok (tbl : Table) (y0 : Int) (rest : List Int)
    (hfm : first_missing_column tbl.header = none) (hy : years tbl.rows = y0 :: rest)
    (hkey : ∀ tc, top_category tbl.rows = some tc → tc ≠ "" →
      tc ∈ cat_sales_by_year_index tbl.rows) :
    run_program true tbl =
      .ok (build_output tbl.rows y0 ((y0 :: rest).getLast (by simp))) := by
  unfold run_program
  rw [if_neg (by simp), hfm, hy]
  cases htc : top_category tbl.rows with
  | none => rfl
  | some tc =>
    show (if tc ≠ "" ∧ y0 ∈ tbl.rows.filterMap row_year ∧
          tc ∉ cat_sales_by_year_index tbl.rows then
        Except.error (ProgError.keyError tc)
      else Except.ok (build_output tbl.rows y0 ((y0 :: rest).getLast (by simp)))) =
      Except.ok (build_output tbl.rows y0 ((y0 :: rest).getLast (by simp)))
    rw [if_neg]
    rintro ⟨hne, -, hnotmem⟩
    exact hnotmem (hkey tc htc hne)

/-- A successful run only ever returns the workbook built from the input rows. -/
theorem run_ok_inv (fe : Bool) (tbl : Table) (out : Output)
    (h : run_program fe tbl = .ok out) :
    ∃ fy ly, out = build_output tbl.rows fy ly := by
  unfold run_program at h
  split at h
  · simp at h
  · cases hfm : first_missing_column tbl.header with
    | some c => rw [hfm] at h; simp at h
    | none =>
      rw [hfm] at h
      cases hy : years tbl.rows with
      | nil => rw [hy] at h; simp at h
      | cons y0 rest =>
        rw [hy] at h
        cases htc : top_category tbl.rows with
        | none =>
          rw [htc] at h
          simp only [Except.ok.injEq] at h
          exact ⟨y0, _, h.symm⟩
        | some tc =>
          rw [htc] at h
          have h2 : (if tc ≠ "" ∧ y0 ∈ tbl.rows.filterMap row_year ∧
                tc ∉ cat_sales_by_year_index tbl.rows then
              Except.error (ProgError.keyError tc)
            else Except.ok (build_output tbl.rows y0 ((y0 :: rest).getLast (by simp)))) =
              Except.ok out := h
          split at h2
          · simp at h2
          · simp only [Except.ok.injEq] at h2
            exact ⟨y0, _, h2.symm⟩

theorem top_category_toy : top_category toy_table.rows = some "Technology" := by
  norm_num +decide [top_category, categories, cat_sales, toy_table, toy_rows,
    toy_row_A, toy_row_B, List.argmax, List.argAux, List.insertionSort,
    List.orderedInsert, List.dedup, List.filter]

theorem run_toy_table :
    run_program true toy_table = .ok (build_output toy_rows 2013 2013) := by
  refine run_program_ok toy_table 2013 [] (by decide) (by decide) ?_
  intro tc htc hne
  rw [top_category_toy] at htc
  simp only [Option.some.injEq] at htc
  subst htc
  decide

theorem top_category_blank : top_category ex_blank_table.rows = some "Technology" := by
  norm_num +decide [top_category, categories, cat_sales, ex_blank_table,
    ex_blank_rows, ex_blank_mgr_row, List.argmax, List.argAux, List.insertionSort,
    List.orderedInsert, List.dedup, List.filter]

theorem run_blank_table :
    run_program true ex_blank_table = .ok (build_output ex_blank_rows 2013 2013) := by
  refine run_program_ok ex_blank_table 2013 [] (by decide) (by decide) ?_
  intro tc htc hne
  rw [top_category_blank] at htc
  simp only [Option.some.injEq] at htc
  subst htc
  decide

/-- Claim C1, counterexample: on the one-row dataset whose only row has a
missing manager (sales 100), the Manager Performance sheet is empty, so the
sum of its per-manager SUMIF cells is 0 while the Total Sales KPI
(`=SUM(Data!Sales)`) is 100. The claim as stated is false. -/
theorem C1_counterexample :
    ((manager_sheet ex_blank_rows).map (fun e => e.2.1)).sum ≠
      dash_total_sales ex_blank_rows := by
  norm_num +decide [manager_sheet, managers, ex_blank_rows, ex_blank_mgr_row,
    manager_filled, dash_total_sales, prepare, fill_row, List.insertionSort,
    List.orderedInsert, List.dedup, List.filter]

/-- Claim C1, amended: for every input dataset in which every row has a
present, non-empty manager, the sum over the Manager Performance sheet rows
of the per-manager SUMIF aggregates equals the Total Sales KPI
(`=SUM` of the whole Sales column of the Data sheet). -/
theorem C1_manager_sum_amended (rows : List Row)
    (h : ∀ r ∈ rows, manager_filled r ≠ "") :
    ((manager_sheet rows).map (fun e => e.2.1)).sum = dash_total_sales rows := by
  rw [manager_sheet_sales_sum, dash_total_sales_eq, total_sales_partition rows,
    sumif_manager_eq_zero rows "" h, add_zero]

/-- Witness for C1 amended at the toy dataset (all managers present). -/
theorem C1_witness :
    ((manager_sheet toy_rows).map (fun e => e.2.1)).sum = dash_total_sales toy_rows :=
  C1_manager_sum_amended toy_rows (by decide)

/-- Claim C2, counterexample: with every required column absent (empty
header), the column `Category` is missing, yet the single raised
`ValueError` names `Order Date` (the first missing column in `required`
order) and its message does not mention `Category`. -/
theorem C2_counterexample :
    "Category" ∈ required ∧ "Category" ∉ ex_no_cols_table.header
    ∧ run_program true ex_no_cols_table =
        .error (.missingColumn (missing_column_msg "Order Date"))
    ∧ ¬ ("Category".data <:+: (missing_column_msg "Order Date").data) :=
  ⟨by decide, by decide, rfl, by decide⟩

/-- Claim C2, amended: if any required column is absent from the header, the
program fails with a fatal `ValueError` naming the first missing required
column in the fixed `required` order — the named column `c2` is missing and
every required column listed before it is present — and produces no output;
in particular, when the given column is the only missing required one, the
error message names that column. -/
theorem C2_missing_column_amended :
    (∀ (tbl : Table) (c : String), c ∈ required → c ∉ tbl.header →
      ∃ c2 pre suf, required = pre ++ c2 :: suf
        ∧ (∀ x ∈ pre, x ∈ tbl.header)
        ∧ c2 ∉ tbl.header
        ∧ run_program true tbl = .error (.missingColumn (missing_column_msg c2))
        ∧ c2.data <:+: (missing_column_msg c2).data)
    ∧ (∀ (tbl : Table) (c : String), c ∈ required → c ∉ tbl.header →
        (∀ c2 ∈ required, c2 ≠ c → c2 ∈ tbl.header) →
        run_program true tbl = .error (.missingColumn (missing_column_msg c)) ∧
        c.data <:+: (missing_column_msg c).data) := by
  constructor
  · intro tbl c hc hh
    cases hfind : required.find? (fun c => !(tbl.header.contains c)) with
    | none =>
      exfalso
      have h2 := List.find?_eq_none.1 hfind c hc
      exact hh (by simpa using h2)
    | some c2 =>
      obtain ⟨pre, suf, hsplit, hpre, hp⟩ := find?_split _ required c2 hfind
      refine ⟨c2, pre, suf, hsplit, ?_, by simpa using hp,
        run_program_some_col tbl c2 hfind, msg_names_column c2⟩
      intro x hx
      have := hpre x hx
      simpa using this
  · intro tbl c hc hh honly
    have hp : (fun c => !(tbl.header.contains c)) c = true := by simpa using hh
    have hu : ∀ x ∈ required, (fun c => !(tbl.header.contains c)) x = true → x = c := by
      intro x hx hpx
      by_contra hne
      have hxh := honly x hx hne
      have : x ∉ tbl.header := by simpa using hpx
      exact this hxh
    have hfind := find_first _ c required hc hp hu
    exact ⟨run_program_some_col tbl c hfind, msg_names_column c⟩

/-- Witness for C2 amended: `Manager` is the only required column missing
from `ex_no_mgr_table`, and the run fails with the error naming `Manager`. -/
theorem C2_witness :
    run_program true ex_no_mgr_table =
      .error (.missingColumn (missing_column_msg "Manager"))
    ∧ "Manager".data <:+: (missing_column_msg "Manager").data :=
  C2_missing_column_amended.2 ex_no_mgr_table "Manager" (by decide) (by decide)
    (by decide)

/-- Claim C3, counterexample: on the one-row dataset (sales 100, one order
id), the run succeeds, the pandas/Findings Average Order Value is
`100 / 1 = 100`, but the Dashboard cell `=IFERROR(SUM(...)/COUNTA(...),0)`
evaluates to `100 / 2 = 50` because `COUNTA` also counts the header cell
(and would count duplicated order ids). The two written values differ. -/
theorem C3_counterexample :
    run_program true ex_blank_table = .ok (build_output ex_blank_rows 2013 2013)
    ∧ (build_output ex_blank_rows 2013 2013).kpi_avg_order_value ≠
        (build_output ex_blank_rows 2013 2013).findings_avg_order_value := by
  refine ⟨run_blank_table, ?_⟩
  show dash_avg_order_value ex_blank_rows ≠ avg_order_value ex_blank_rows
  norm_num +decide [dash_avg_order_value, avg_order_value, dash_total_sales,
    total_sales_val, total_orders, counta_order_id, prepare, fill_row,
    ex_blank_rows, ex_blank_mgr_row, List.filter, List.dedup, List.filterMap]

/-- Claim C3, amended: on every successful run, the Findings-page Average
Order Value equals `avg_order_value` (total sales over distinct order count,
0 when the order count is 0), while the Dashboard Average Order Value cell
instead evaluates to total sales divided by `COUNTA` of the `Order ID`
column (the non-blank order-id cells plus the header cell). -/
theorem C3_avg_order_value_amended (tbl : Table) (out : Output)
    (h : run_program true tbl = .ok out) :
    out.findings_avg_order_value = avg_order_value tbl.rows
    ∧ (total_orders tbl.rows = 0 → out.findings_avg_order_value = 0)
    ∧ (total_orders tbl.rows ≠ 0 →
        out.findings_avg_order_value =
          total_sales_val tbl.rows / (total_orders tbl.rows : ℚ))
    ∧ out.kpi_avg_order_value =
        dash_total_sales tbl.rows / (counta_order_id tbl.rows : ℚ) := by
  obtain ⟨fy, ly, rfl⟩ := run_ok_inv true tbl out h
  refine ⟨rfl, ?_, ?_, rfl⟩
  · intro h0
    show avg_order_value tbl.rows = 0
    rw [avg_order_value, if_pos h0]
  · intro h0
    show avg_order_value tbl.rows = _
    rw [avg_order_value, if_neg h0]

/-- Witness for C3 amended at the toy dataset. -/
theorem C3_witness :
    (build_output toy_rows 2013 2013).kpi_avg_order_value =
      dash_total_sales toy_rows / (counta_order_id toy_rows : ℚ) :=
  (C3_avg_order_value_amended toy_table _ run_toy_table).2.2.2

/-- Claim C5: whenever the top-N products' subtotal is non-zero, the
`% of Total` cells of the Top Products sheet (`=B_i/SUM($B$2:$B$(1+n))`)
sum to exactly 1 over the top-N set. -/
theorem C5_top_shares_sum_one (rows : List Row) (h : top_subtotal rows ≠ 0) :
    ((top_products_sheet rows).map (fun e => e.2.2)).sum = 1 := by
  have hmap : (top_products_sheet rows).map (fun e => e.2.2) =
      (prod_list rows).map (fun p => sumif_product rows p / top_subtotal rows) := by
    unfold top_products_sheet
    rw [List.map_map]
    exact List.map_congr_left fun p _ => rfl
  rw [hmap, sum_map_div]
  show top_subtotal rows / top_subtotal rows = 1
  exact div_self h

/-- Witness for C5 at the toy dataset (subtotal 300). -/
theorem C5_witness :
    top_subtotal toy_rows ≠ 0 ∧
    ((top_products_sheet toy_rows).map (fun e => e.2.2)).sum = 1 := by
  have h : top_subtotal toy_rows ≠ 0 := by
    norm_num +decide [top_subtotal, prod_list, product_names, toy_rows, toy_row_A,
      toy_row_B, sumif_product, List.insertionSort, List.orderedInsert, List.dedup,
      List.filter, prod_ge, TOP_N_PRODUCTS]
  exact ⟨h, C5_top_shares_sum_one toy_rows h⟩

/-- Claim C6: on the toy dataset with managers `A` (100) and `B` (200) in
one year, the run succeeds, the Manager Performance sheet lists `A` with
sales 100 and rank 2 and `B` with sales 200 and rank 1 (rank 1 to the
higher sales), and the Dashboard Total Sales KPI is 300. -/
theorem C6_toy_dataset :
    run_program true toy_table = .ok (build_output toy_rows 2013 2013)
    ∧ manager_sheet toy_rows = [("A", 100, 2), ("B", 200, 1)]
    ∧ (build_output toy_rows 2013 2013).kpi_total_sales = 300 := by
  refine ⟨run_toy_table, ?_, ?_⟩
  · norm_num +decide [manager_sheet, managers, toy_rows, toy_row_A, toy_row_B,
      manager_filled, sumif_manager, rank_of, List.insertionSort,
      List.orderedInsert, List.dedup, List.filter, List.countP, List.countP.go]
  · show dash_total_sales toy_rows = 300
    norm_num [dash_total_sales, prepare, fill_row, toy_rows, toy_row_A, toy_row_B]

/-- Claim C7: the aggregation is a deterministic function of the input: any
two successful runs on the same fixed table agree on every aggregate value
(KPIs, per-manager totals, per-category-per-year totals, top-N product
totals) and indeed on the entire workbook. -/
theorem C7_determinism (tbl : Table) (out1 out2 : Output)
    (h1 : run_program true tbl = .ok out1) (h2 : run_program true tbl = .ok out2) :
    out1.kpi_total_sales = out2.kpi_total_sales
    ∧ out1.kpi_total_orders = out2.kpi_total_orders
    ∧ out1.kpi_distinct_managers = out2.kpi_distinct_managers
    ∧ out1.kpi_avg_order_value = out2.kpi_avg_order_value
    ∧ out1.mgr_sheet = out2.mgr_sheet
    ∧ out1.cat_sheet = out2.cat_sheet
    ∧ out1.prod_sheet = out2.prod_sheet
    ∧ out1 = out2 := by
  rw [h1] at h2
  simp only [Except.ok.injEq] at h2
  subst h2
  exact ⟨rfl, rfl, rfl, rfl, rfl, rfl, rfl, rfl⟩

/-- Witness for C7: two runs on the toy table produce the same workbook. -/
theorem C7_witness :
    build_output toy_rows 2013 2013 = build_output toy_rows 2013 2013 :=
  (C7_determinism toy_table _ _ run_toy_table run_toy_table).2.2.2.2.2.2.2

/-- Claim C8: when the input file does not exist, every run fails with the
`FileNotFoundError` whose message names `INPUT_FILE`, produces no output,
and does so before any processing: the result does not depend on the table
at all. -/
theorem C8_missing_input_file (tbl : Table) :
    run_program false tbl = .error (.fileNotFound file_not_found_msg)
    ∧ (run_program false tbl).isOk = false
    ∧ INPUT_FILE.data <:+: file_not_found_msg.data
    ∧ ∀ tbl2 : Table, run_program false tbl = run_program false tbl2 :=
  ⟨rfl, rfl, by decide, fun _ => rfl⟩

/-- Witness for C8 at the toy table. -/
theorem C8_witness :
    run_program false toy_table = .error (.fileNotFound file_not_found_msg) :=
  (C8_missing_input_file toy_table).1

/-- Claim C9: `col_idx_to_excel_col` terminates on every index (it is a total
Lean function) and returns the bijective base-26 Excel column label: a
non-empty all-uppercase string, with `0 ↦ A`, `25 ↦ Z`, `26 ↦ AA`,
`701 ↦ ZZ`, `702 ↦ AAA`, and the map is injective. -/
theorem C9_col_idx_to_excel_col_spec :
    (∀ idx : Nat, col_idx_to_excel_col idx ≠ "" ∧
      ∀ c ∈ (col_idx_to_excel_col idx).data, 'A' ≤ c ∧ c ≤ 'Z')
    ∧ col_idx_to_excel_col 0 = "A"
    ∧ col_idx_to_excel_col 25 = "Z"
    ∧ col_idx_to_excel_col 26 = "AA"
    ∧ col_idx_to_excel_col 701 = "ZZ"
    ∧ col_idx_to_excel_col 702 = "AAA"
    ∧ Function.Injective col_idx_to_excel_col := by
  refine ⟨fun idx => ⟨?_, ?_⟩, ?_, ?_, ?_, ?_, ?_, ?_⟩
  · intro h
    apply col_digits_ne_nil idx
    have h2 : (col_digits idx).map (fun d => Char.ofNat (65 + d)) = [] :=
      congrArg String.data h
    exact List.map_eq_nil_iff.1 h2
  · intro c hc
    simp only [col_idx_to_excel_col, List.mem_map] at hc
    obtain ⟨d, hd, rfl⟩ := hc
    have h26 := col_digits_lt idx d hd
    interval_cases d <;> exact ⟨by decide, by decide⟩
  · rw [col_idx_to_excel_col, col_digits]; norm_num
  · rw [col_idx_to_excel_col, col_digits]; norm_num
  · rw [col_idx_to_excel_col, col_digits, col_digits]; norm_num
  · rw [col_idx_to_excel_col, col_digits, col_digits]; norm_num
  · rw [col_idx_to_excel_col, col_digits, col_digits, col_digits]; norm_num
  · intro a b h
    apply col_digits_injective
    have hdata : (col_digits a).map (fun d => Char.ofNat (65 + d)) =
        (col_digits b).map (fun d => Char.ofNat (65 + d)) := congrArg String.data h
    calc col_digits a
        = ((col_digits a).map (fun d => Char.ofNat (65 + d))).map
            (fun c => c.toNat - 65) := (col_roundtrip a).symm
      _ = ((col_digits b).map (fun d => Char.ofNat (65 + d))).map
            (fun c => c.toNat - 65) := by rw [hdata]
      _ = col_digits b := col_roundtrip b

/-- Witness for C9: the first letter of the label of column 0 is in `A`-`Z`. -/
theorem C9_witness : 'A' ≤ 'A' ∧ 'A' ≤ 'Z' := by
  have h := C9_col_idx_to_excel_col_spec
  exact (h.1 0).2 'A' (by rw [h.2.1]; decide)

/-- Claim C10: rows with a missing manager get the empty-string manager on
the Data sheet; the Manager Performance sheet has exactly one row per
distinct non-empty manager, sorted ascending with no duplicates; the Data
sheet keeps every row's sales; and the Total Sales KPI splits as the sum of
the per-manager aggregates plus the blank-manager sales (so the missing-
manager rows are still counted in the KPI). -/
theorem C10_blank_manager_rows (rows : List Row) :
    (∀ r ∈ rows, r.manager = none → manager_filled r = "")
    ∧ (∀ m ∈ managers rows, m ≠ "")
    ∧ (managers rows).Sorted (· ≤ ·)
    ∧ (managers rows).Nodup
    ∧ (∀ m : String, m ∈ managers rows ↔ m ≠ "" ∧ ∃ r ∈ rows, manager_filled r = m)
    ∧ (prepare rows).map (·.sales) = rows.map (·.sales)
    ∧ dash_total_sales rows =
        ((managers rows).map (sumif_manager rows)).sum + sumif_manager rows "" := by
  refine ⟨?_, ?_, managers_sorted rows, managers_nodup rows, mem_managers_iff rows,
    ?_, ?_⟩
  · intro r _ h
    simp [manager_filled, h]
  · intro m hm
    exact ((mem_managers_iff rows m).1 hm).1
  · unfold prepare
    rw [List.map_map]
    exact List.map_congr_left fun r _ => rfl
  · rw [dash_total_sales_eq]
    exact total_sales_partition rows

/-- Witness for C10 at the blank-manager dataset: its KPI splits into the
(empty) per-manager sum plus the blank-manager sales. -/
theorem C10_witness :
    dash_total_sales ex_blank_rows =
      ((managers ex_blank_rows).map (sumif_manager ex_blank_rows)).sum +
        sumif_manager ex_blank_rows "" :=
  (C10_blank_manager_rows ex_blank_rows).2.2.2.2.2.2

end GlobalTech
